import Mathlib

/-!
Verification development for the voiceblend TUI repository.

The definitions below are a shallow embedding of the Python sources:
`core/settings.py`, `core/blender.py`, `widgets/output_filename.py`,
`widgets/voice_selection.py`, `widgets/blend_ratio.py`,
`services/file_service.py`, `services/audio_service.py` and `app.py`.
Python floats are modelled as rationals, Python `dict[str, str]` as an
association list with unique keys, and widget readiness (attached /
mounted / options loaded) as explicit boolean environments.
-/

namespace VoiceBlend

/-! Python string primitives used by the embedded code.  Strings are
handled through their underlying character lists so that every
definition evaluates by kernel reduction. -/

/-- Whitespace characters recognised by Python `str.strip()`. -/
def isPySpace (c : Char) : Bool :=
  c = ' ' || c = '\t' || c = '\n' || c = '\x0b' || c = '\x0c' || c = '\r'

/-- Model of Python `s.strip()`: drop whitespace from both ends. -/
def pyStrip (s : String) : String :=
  ⟨(((s.data.dropWhile isPySpace).reverse.dropWhile isPySpace).reverse)⟩

/-- Model of Python `s.strip(c)` for a single character `c`: drop every
leading and trailing occurrence of `c`. -/
def pyStripChar (c : Char) (s : String) : String :=
  ⟨(((s.data.dropWhile (· = c)).reverse.dropWhile (· = c)).reverse)⟩

/-- Model of Python `s.endswith(t)`. -/
def pyEndsWith (s t : String) : Bool :=
  decide (t.data <:+ s.data)

/-- Model of Python `s.startswith(t)`. -/
def pyStartsWith (s t : String) : Bool :=
  decide (t.data <+: s.data)

/-- Model of Python slicing `s[:-n]`: drop the last `n` characters. -/
def pyDropRight (s : String) (n : Nat) : String :=
  ⟨s.data.take (s.data.length - n)⟩

/-- Model of Python `c in s` for a character `c`. -/
def pyContainsChar (s : String) (c : Char) : Bool :=
  s.data.contains c

/-- Model of Python `s.split(sep, 1)` on a one-character separator:
the part before the first occurrence and the part after it, or `none`
when the separator does not occur (i.e. `sep in s` is false). -/
def pySplitOnce (sep : Char) (s : String) : Option (String × String) :=
  if s.data.contains sep then
    some (⟨s.data.takeWhile (· ≠ sep)⟩, ⟨(s.data.dropWhile (· ≠ sep)).drop 1⟩)
  else
    none

/-- Digits of a decimal numeral read as a natural number; `none` when
the list is empty or holds a non-digit. -/
def digitsToNat : List Char → Option Nat
  | [] => none
  | cs => cs.foldl
      (fun acc c =>
        match acc with
        | none => none
        | some n => if c.isDigit then some (n * 10 + (c.toNat - 48)) else none)
      (some 0)

/-- Model of Python `int(s)` on the decimal fragment: optional
whitespace and sign, then digits.  Returns `none` where Python raises
`ValueError`.  Underscores and other bases, never produced by this
application, are not modelled. -/
def pyParseInt (s : String) : Option Int :=
  let t := (pyStrip s).data
  match t with
  | '-' :: rest => (digitsToNat rest).map (fun n => -(n : Int))
  | '+' :: rest => (digitsToNat rest).map (fun n => (n : Int))
  | rest => (digitsToNat rest).map (fun n => (n : Int))

/-- Model of Python `float(s)` on the plain decimal fragment
`[sign] digits [. digits]`, as an exact rational.  Exponent, infinity
and NaN forms, never produced by this application, are not modelled. -/
def pyParseFloat (s : String) : Option ℚ :=
  let t := (pyStrip s).data
  let core : List Char → Option ℚ := fun cs =>
    match pySplitOnce '.' ⟨cs⟩ with
    | none => (digitsToNat cs).map (fun n => (n : ℚ))
    | some (ip, fp) =>
      if ip.data.isEmpty && fp.data.isEmpty then none
      else
        let ipn := if ip.data.isEmpty then some 0 else digitsToNat ip.data
        let fpn := if fp.data.isEmpty then some 0 else digitsToNat fp.data
        match ipn, fpn with
        | some i, some f => some ((i : ℚ) + (f : ℚ) / ((10 : ℚ) ^ fp.data.length))
        | _, _ => none
  match t with
  | '-' :: rest => (core rest).map (fun q => -q)
  | '+' :: rest => core rest
  | rest => core rest

/-- Model of Python `int(x)` on a float: truncation toward zero. -/
def pyTrunc (q : ℚ) : ℤ :=
  if 0 ≤ q then ⌊q⌋ else ⌈q⌉

/-- Model of `pathlib.PurePath.stem` on a file name: the name without
its final suffix, where a suffix is a final dot neither at the start
nor at the end of the name. -/
def pathStem (name : String) : String :=
  let flen := (name.data.reverse.takeWhile (· ≠ '.')).length
  if name.data.contains '.' ∧ 0 < name.data.length - flen - 1 ∧ flen ≠ 0 then
    ⟨name.data.take (name.data.length - flen - 1)⟩
  else
    name

/-! Settings store, embedded from `core/settings.py`.  The in-memory
`dict[str, str]` is an association list with unique keys in insertion
order; `sorted(self._settings.items())` is modelled by insertion sort
on the keys. -/

/-- In-memory settings mapping: keys in insertion order, unique. -/
abbrev Store : Type := List (String × String)

/-- Dictionary write `self._settings[key] = value`: overwrite in place
when the key is present, append otherwise. -/
def storeSet (st : Store) (key value : String) : Store :=
  match st with
  | [] => [(key, value)]
  | (k, v) :: rest =>
    if k = key then (k, value) :: rest else (k, v) :: storeSet rest key value

/-- Dictionary read `self._settings.get(key, default)`. -/
def storeGet (st : Store) (key default : String) : String :=
  match st with
  | [] => default
  | (k, v) :: rest => if k = key then v else storeGet rest key default

/-- Dictionary membership probe: the stored value, when present. -/
def storeFind (st : Store) (key : String) : Option String :=
  match st with
  | [] => none
  | (k, v) :: rest => if k = key then some v else storeFind rest key

/-- Lexicographic comparison of strings by code point, the order
Python `sorted` uses on `str`. -/
def charListLt : List Char → List Char → Bool
  | [], [] => false
  | [], _ :: _ => true
  | _ :: _, [] => false
  | a :: as, b :: bs =>
    if a.toNat < b.toNat then true
    else if b.toNat < a.toNat then false
    else charListLt as bs

/-- Boolean key order used to model Python `sorted` on the items. -/
def keyLe (a b : String × String) : Bool :=
  !(charListLt b.1.data a.1.data)

/-- Insertion into a key-sorted list. -/
def insertByKey (p : String × String) : List (String × String) → List (String × String)
  | [] => [p]
  | q :: rest => if keyLe p q then p :: q :: rest else q :: insertByKey p rest

/-- Model of `sorted(self._settings.items())`: keys are unique, so
sorting the pairs is sorting by key. -/
def sortByKey (st : Store) : List (String × String) :=
  st.foldr insertByKey []

/-- Double quote character. -/
def dquote : Char := Char.ofNat 34

/-- Single quote character. -/
def squote : Char := Char.ofNat 39

/-- Value serialisation inside `Settings.save`: values holding a double
quote or a space are wrapped in double quotes. -/
def quoteValue (v : String) : String :=
  if pyContainsChar v dquote ∨ pyContainsChar v ' ' then
    ⟨[dquote]⟩ ++ v ++ ⟨[dquote]⟩
  else v

/-- Model of `Settings.save`: the lines written to the `.env` file — a
two-line comment header, a blank line, then one `key=value` line per
sorted entry. -/
def saveLines (st : Store) : List String :=
  "# Voice Blender TUI Settings" ::
  "# Auto-generated - do not edit manually" ::
  "" ::
  (sortByKey st).map (fun p => p.1 ++ "=" ++ quoteValue p.2)

/-- Model of one iteration of the `Settings.load` loop: strip the line,
skip blank lines and `#` comments, split on the first `=`, strip the
key, and strip whitespace then double quotes then single quotes from
the value. -/
def loadLine (st : Store) (line : String) : Store :=
  let l := pyStrip line
  if l.data.isEmpty ∨ pyStartsWith l "#" then st
  else
    match pySplitOnce '=' l with
    | none => st
    | some (key, value) =>
      storeSet st (pyStrip key) (pyStripChar squote (pyStripChar dquote (pyStrip value)))

/-- Model of `Settings.load` over the lines of the `.env` file,
starting from the given in-memory mapping (empty at construction). -/
def load (lines : List String) (st : Store) : Store :=
  lines.foldl loadLine st

/-- Model of `Settings.get`. -/
def get (st : Store) (key : String) (default : String) : String :=
  storeGet st key default

/-- Model of `Settings.set`: update the mapping (the synchronous
rewrite of the file is `saveLines` of the result). -/
def set (st : Store) (key value : String) : Store :=
  storeSet st key value

/-- Model of `Settings.get_int`: `int()` of the stored string, falling
back to the default on a parse failure. -/
def get_int (st : Store) (key : String) (default : Int) : Int :=
  match pyParseInt (get st key (toString default)) with
  | some n => n
  | none => default

/-- Model of `Settings.get_float`: `float()` of the stored string,
falling back to the default on a parse failure.  The rendering of the
float default by `str(default)` only matters when the key is missing,
in which case the parse returns the default again, so the default is
passed through directly. -/
def get_float (st : Store) (key : String) (default : ℚ) : ℚ :=
  match storeFind st key with
  | some v =>
    match pyParseFloat v with
    | some q => q
    | none => default
  | none => default

/-! Output filename widget, embedded from `widgets/output_filename.py`. -/

/-- Component state of `OutputFilenameWidget`. -/
structure OutputFilenameWidgetState where
  current_filename : String
  is_valid : Bool
  deriving DecidableEq, Repr

/-- Initial widget state from `OutputFilenameWidget.__init__`. -/
def outputWidgetInit : OutputFilenameWidgetState :=
  { current_filename := "output", is_valid := true }

/-- Characters rejected by `OutputFilenameWidget.validate_filename`. -/
def invalid_chars : List Char :=
  ['/', '\\', ':', '*', '?', dquote, '<', '>', '|']

/-- Model of `OutputFilenameWidget.validate_filename` as a predicate on
the current filename: empty names and names holding an invalid
character are invalid. -/
def validate_filename (name : String) : Bool :=
  if name.data.isEmpty then false
  else if invalid_chars.any (fun c => pyContainsChar name c) then false
  else true

/-- Model of `OutputFilenameWidget.on_input_changed`: strip the entered
value, replace an empty entry by `"output"`, drop one trailing `".wav"`,
then store and validate the result. -/
def on_input_changed (value : String) : OutputFilenameWidgetState :=
  let filename := pyStrip value
  let filename := if filename.data.isEmpty then "output" else filename
  let filename := if pyEndsWith filename ".wav" then pyDropRight filename 4 else filename
  { current_filename := filename, is_valid := validate_filename filename }

/-- Model of `OutputFilenameWidget.get_full_path`: the name component
of `default_output_dir / f"{current_filename}.wav"`. -/
def get_full_path_name (w : OutputFilenameWidgetState) : String :=
  w.current_filename ++ ".wav"

/-- Model of `FileService.get_output_path` (from
`services/file_service.py`): strip one trailing `".wav"` and return the
name component of `default_output_dir / f"{filename}.wav"`. -/
def get_output_path_name (filename : String) : String :=
  let f := if pyEndsWith filename ".wav" then pyDropRight filename 4 else filename
  f ++ ".wav"

/-! Voice selection widget, embedded from `widgets/voice_selection.py`.
A voice slot is `Option String`; `none` covers the falsy `None` value
(selections are produced by `str(event.value)` of a voice name and are
never the empty string). -/

/-- Component state of `VoiceSelectionWidget`. -/
structure VoiceSelectionWidgetState where
  mode : Int
  selected_voice1 : Option String
  selected_voice2 : Option String
  deriving DecidableEq, Repr

/-- Model of `VoiceSelectionWidget.validate_selection`. -/
def validate_selection (w : VoiceSelectionWidgetState) : Bool × String :=
  match w.selected_voice1 with
  | none => (false, "Please select Voice 1")
  | some _ =>
    if w.mode = 2 ∧ w.selected_voice2 = none then
      (false, "Please select Voice 2")
    else
      (true, "")

/-! Blend ratio widget, embedded from `widgets/blend_ratio.py`. -/

/-- Component state of `BlendRatioWidget`. -/
structure BlendRatioWidgetState where
  current_ratio : ℚ
  visible : Bool
  deriving DecidableEq, Repr

/-- The ratio values of `BlendRatioWidget.RATIO_OPTIONS`, in source
order. -/
def RATIO_OPTION_VALUES : List ℚ :=
  [0.5, 0.4, 0.3, 0.2, 0.1, 0.6, 0.7, 0.8, 0.9]

/-! Blending weights, embedded from `VoiceBlender.blend` in
`core/blender.py`. -/

/-- The two interpolation weights `weight_1 = 1.0 - ratio` and
`weight_2 = ratio` computed by `VoiceBlender.blend`. -/
def blendWeights (ratio : ℚ) : ℚ × ℚ :=
  (1 - ratio, ratio)

/-- The blended style vector
`mixed_style = voice_1 * weight_1 + voice_2 * weight_2`, on style
vectors modelled as rational-valued lists. -/
def mixed_style (ratio : ℚ) (voice_1 voice_2 : List ℚ) : List ℚ :=
  List.zipWith
    (fun a b => a * (blendWeights ratio).1 + b * (blendWeights ratio).2)
    voice_1 voice_2

/-! Rendering of the floats this application stores, used where the
source calls `str()` on a ratio.  Every such float originates from a
decimal literal or a decimal settings value, for which Python `str`
produces the shortest decimal form — the exact decimal rendering. -/

/-- Least power of ten clearing the denominator, when one of at most
twenty exists. -/
def decimalExp (q : ℚ) : Option Nat :=
  (List.range 21).find? (fun k => (q * (10 : ℚ) ^ k).den = 1)

/-- Pad a numeral with leading zeros up to width `k`. -/
def padLeftZeros (s : String) (k : Nat) : String :=
  ⟨List.replicate (k - s.data.length) '0'⟩ ++ s

/-- Model of Python `str()` on the decimal floats stored by this
application. -/
def floatRepr (q : ℚ) : String :=
  let sign := if q < 0 then "-" else ""
  let a := |q|
  match decimalExp a with
  | some 0 => sign ++ toString a.num ++ ".0"
  | some (k + 1) =>
    let n := (a * (10 : ℚ) ^ (k + 1)).num.toNat
    sign ++ toString (n / 10 ^ (k + 1)) ++ "." ++
      padLeftZeros (toString (n % 10 ^ (k + 1))) (k + 1)
  | none => sign ++ toString a.num ++ "/" ++ toString a.den

/-! Application state and handlers, embedded from `app.py`.  The file
path of the loaded input is carried as its name component (the only
part the application reads, through `Path.stem` and `Path.name`).
Message-log output and footer text are observability only and are
modelled through the handlers' returned outcomes, not as state. -/

/-- State of `VoiceBlendApp` together with its widgets and settings
store.  `running` is the dispatch record of the in-flight generation
job: the only value the worker lambda captures at dispatch time is the
local `output_path`; every other input is an attribute read on `self`
evaluated when the worker runs. -/
structure AppState where
  selectedText : String
  selectedFileName : Option String
  voice_mode : Int
  voice1 : Option String
  voice2 : Option String
  blend_ratio : ℚ
  output_filename : String
  is_generating : Bool
  generateBtnDisabled : Bool
  voiceWidget : VoiceSelectionWidgetState
  outputWidget : OutputFilenameWidgetState
  blendWidget : BlendRatioWidgetState
  settings : Store
  running : Option String
  deriving DecidableEq, Repr

/-- Initial application state from the class attribute defaults and
`VoiceBlendApp.__init__`, which reads the persisted settings
(`self.settings.get("voice1") or None` maps the empty default to
`None`). -/
def initApp (st : Store) : AppState :=
  { selectedText := ""
    selectedFileName := none
    voice_mode := get_int st "voice_mode" 2
    voice1 := if (get st "voice1" "").data.isEmpty then none else some (get st "voice1" "")
    voice2 := if (get st "voice2" "").data.isEmpty then none else some (get st "voice2" "")
    blend_ratio := get_float st "blend_ratio" 0.5
    output_filename := "output"
    is_generating := false
    generateBtnDisabled := false
    voiceWidget := { mode := 2, selected_voice1 := none, selected_voice2 := none }
    outputWidget := outputWidgetInit
    blendWidget := { current_ratio := 0.5, visible := false }
    settings := st
    running := none }

/-- Model of `VoiceBlendApp._update_smart_output_filename`: when an
input file is loaded, derive the suggested output name from its stem,
the selected voices and, in dual mode, the integer blend percentage,
and push it into the output-filename widget (whose change notification
updates `self.output_filename`). -/
def update_smart_output_filename (s : AppState) : AppState :=
  match s.selectedFileName with
  | none => s
  | some fname =>
    let base_name := pathStem fname
    let filename :=
      if s.voice_mode = 2 ∧ s.voice1.isSome ∧ s.voice2.isSome then
        base_name ++ "_" ++ s.voice1.getD "" ++ "_" ++ s.voice2.getD "" ++ "_" ++
          toString (pyTrunc (s.blend_ratio * 100))
      else
        match s.voice1 with
        | some v1 => base_name ++ "_" ++ v1
        | none => base_name
    { s with
      outputWidget := { current_filename := filename, is_valid := validate_filename filename }
      output_filename := filename }

/-- Model of `VoiceBlendApp.on_file_loaded`: a successful load stores
the text and path and recomputes the derived filename; a cleared or
failed load clears both. -/
def on_file_loaded (s : AppState) (file_name : Option String) (content : String) : AppState :=
  match file_name with
  | some f =>
    if content.data.isEmpty then
      { s with selectedText := "", selectedFileName := none }
    else
      update_smart_output_filename
        { s with selectedText := content, selectedFileName := some f }
  | none => { s with selectedText := "", selectedFileName := none }

/-- Model of `VoiceBlendApp.on_voice_selection_changed`: store the
mode and voices, persist the mode and each set voice, show or hide the
blend-ratio widget, and recompute the derived filename. -/
def on_voice_selection_changed (s : AppState) (mode : Int) (v1 v2 : Option String) : AppState :=
  let s := { s with voice_mode := mode, voice1 := v1, voice2 := v2 }
  let st := set s.settings "voice_mode" (toString mode)
  let st := match v1 with | some v => set st "voice1" v | none => st
  let st := match v2 with | some v => set st "voice2" v | none => st
  let bw := { s.blendWidget with visible := mode = 2 }
  update_smart_output_filename { s with settings := st, blendWidget := bw }

/-- Model of `VoiceBlendApp.on_blend_ratio_changed`: store the ratio,
persist it, and recompute the derived filename. -/
def on_blend_ratio_changed (s : AppState) (ratio : ℚ) : AppState :=
  let s := { s with blend_ratio := ratio }
  let st := set s.settings "blend_ratio" (floatRepr ratio)
  update_smart_output_filename { s with settings := st }

/-- Model of `VoiceBlendApp.on_output_filename_changed` composed with
the widget's `on_input_changed`: an edit of the output-filename input
normalises and validates the entry in the widget and stores the
filename on the app. -/
def output_filename_input_event (s : AppState) (value : String) : AppState :=
  let w := on_input_changed value
  { s with outputWidget := w, output_filename := w.current_filename }

/-! Generation orchestrator, embedded from `app.py`:
`handle_generate`, the worker lambda, `on_worker_state_changed` and the
reset helpers. -/

/-- Outcome surfaced by `handle_generate`: a validation rejection with
its message, or a dispatched job with the dispatch-time output path. -/
inductive GenResult
  | rejected (msg : String)
  | dispatched (output_path : String)
  deriving DecidableEq, Repr

/-- Whether a `GenResult` is a rejection. -/
def GenResult.isRejected : GenResult → Bool
  | .rejected _ => true
  | .dispatched _ => false

/-- Model of `VoiceBlendApp.handle_generate`: validate the loaded text,
the voice selection and the output filename; on success mark the job in
progress, disable the generate button and hand the worker lambda its
captured local `output_path`. -/
def handle_generate (s : AppState) : AppState × GenResult :=
  if s.selectedText.data.isEmpty then
    (s, .rejected "Generation failed: No text file loaded")
  else
    let v := validate_selection s.voiceWidget
    if v.1 = false then
      (s, .rejected v.2)
    else if s.outputWidget.is_valid = false then
      (s, .rejected "Generation failed: Invalid output filename")
    else
      let output_path := get_full_path_name s.outputWidget
      ({ s with
          is_generating := true
          generateBtnDisabled := true
          running := some output_path },
        .dispatched output_path)

/-- A press of the generate button at the interface layer: a disabled
button emits no `Button.Pressed` event, so `handle_generate` runs only
when the trigger is enabled. -/
def pressGenerate (s : AppState) : AppState × Option GenResult :=
  if s.generateBtnDisabled then (s, none)
  else
    let p := handle_generate s
    (p.1, some p.2)

/-- Inputs the background worker passes to
`AudioService.generate_audio`.  Mirrors the parameter list of
`_generate_worker`. -/
structure SynthArgs where
  text : String
  voice_mode : Int
  voice1 : Option String
  voice2 : Option String
  ratio : ℚ
  output_path : String
  deriving DecidableEq, Repr

/-- Model of the worker lambda
`lambda: self._generate_worker(self.selected_text, self.voice_mode,
self.voice1, self.voice2, self.blend_ratio, str(output_path))` passed
to `run_worker`: the attribute reads on `self` evaluate against the
application state current when the worker thread runs the lambda,
while `output_path` is the dispatch-time local it closed over. -/
def generateWorkerArgs (dispatch_output_path : String) (execState : AppState) : SynthArgs :=
  { text := execState.selectedText
    voice_mode := execState.voice_mode
    voice1 := execState.voice1
    voice2 := execState.voice2
    ratio := execState.blend_ratio
    output_path := dispatch_output_path }

/-- Model of `VoiceBlendApp._reset_ui_after_generation`: clear the
generation flag, re-enable the generate button, clear the loaded text
and file, and reset the output filename to `"output"`; the voice mode,
voices and blend ratio are not touched. -/
def reset_ui_after_generation (s : AppState) : AppState :=
  { s with
    is_generating := false
    generateBtnDisabled := false
    selectedText := ""
    selectedFileName := none
    outputWidget := { current_filename := "output", is_valid := validate_filename "output" }
    output_filename := "output" }

/-- Model of `VoiceBlendApp._force_enable_ui`: the fallback that only
clears the generation flag and re-enables the generate button. -/
def force_enable_ui (s : AppState) : AppState :=
  { s with is_generating := false, generateBtnDisabled := false }

/-- The worker lifecycle states of `textual.worker.WorkerState`, a
plain `enum.Enum` (not a str mixin). -/
inductive WorkerState
  | pending
  | running
  | cancelled
  | error
  | success
  deriving DecidableEq, Repr

/-- The Python values compared by `on_worker_state_changed`. -/
inductive PyValue
  | str (s : String)
  | workerState (ws : WorkerState)
  deriving DecidableEq, Repr

/-- Model of the Python `==` used by `on_worker_state_changed`: default
`enum.Enum` equality is identity within the enum, and a comparison of
an enum member against a value of another type (its `__eq__` returns
`NotImplemented`, so `==` falls back to identity) is `False` — in
particular `WorkerState.SUCCESS == "success"` is `False`. -/
def pyEq : PyValue → PyValue → Bool
  | .str a, .str b => a = b
  | .workerState a, .workerState b => a = b
  | _, _ => false

/-- Model of `VoiceBlendApp.on_worker_state_changed` for a worker with
the given name and state: the `success` branch drops the worker record
and schedules the reset plus the force-enable fallback, the `error`
branch drops the record, clears the generation flag and re-enables the
controls (only the generate button was ever disabled) — but both
branches guard on `worker_state == "success"` / `== "error"`, a
comparison of the `WorkerState` enum member against a string, so
neither ever fires and the handler returns with the state unchanged. -/
def on_worker_state_changed (s : AppState) (worker_name : Option String)
    (worker_state : WorkerState) : AppState :=
  if worker_name = some "audio_generator" then
    if pyEq (.workerState worker_state) (.str "success") = true then
      force_enable_ui (reset_ui_after_generation { s with running := none })
    else if pyEq (.workerState worker_state) (.str "error") = true then
      { s with running := none, is_generating := false, generateBtnDisabled := false }
    else s
  else s

/-- The interface-layer guard invariant: while a job is in progress the
generate trigger is disabled. -/
def TriggerInv (s : AppState) : Prop :=
  s.is_generating = true → s.generateBtnDisabled = true

/-! Reconciliation of persisted settings onto widgets, embedded from
`_set_voice2_value` and `_set_blend_ratio_value` in `app.py`.  Whether
the queried widgets exist, are attached and have their options loaded
at a given attempt is the scheduling environment, modelled as explicit
booleans. -/

/-- Readiness environment of one `_set_voice2_value` attempt. -/
structure Voice2Env where
  section_exists : Bool
  select_attached : Bool
  voices_loaded : Bool
  deriving DecidableEq, Repr

/-- Readiness environment of one `_set_blend_ratio_value` attempt. -/
structure BlendRatioEnv where
  widget_visible : Bool
  widget_attached : Bool
  select_attached : Bool
  deriving DecidableEq, Repr

/-- Outcome of a single reconciliation attempt: the value was applied,
or the target was not ready and a retry was scheduled. -/
inductive AttemptOutcome
  | applied
  | needsRetry
  deriving DecidableEq, Repr

/-- Model of one attempt of `_set_voice2_value` (the body between the
attempt-count guard and the rescheduling): `self.voice2 = voice2_value`
runs before any readiness check; then the voice-2 section, the select
widget and the loaded voices are probed in turn, rescheduling on any
failure; on success the widget selection is set and
`notify_selection_changed` routes through
`on_voice_selection_changed`. -/
def set_voice2_attempt (env : Voice2Env) (voice2_value : String) (s : AppState) :
    AppState × AttemptOutcome :=
  let s := { s with voice2 := some voice2_value }
  if env.section_exists = false then (s, .needsRetry)
  else if env.select_attached = false then (s, .needsRetry)
  else if env.voices_loaded = false then (s, .needsRetry)
  else
    let vw := { s.voiceWidget with selected_voice2 := some voice2_value }
    let s := { s with voiceWidget := vw }
    (on_voice_selection_changed s vw.mode vw.selected_voice1 vw.selected_voice2, .applied)

/-- Round half to even on rationals, the rounding of Python
`round()`. -/
def round_half_even (q : ℚ) : ℤ :=
  let f := ⌊q⌋
  let r := q - (f : ℚ)
  if r < 1 / 2 then f
  else if 1 / 2 < r then f + 1
  else if Even f then f else f + 1

/-- Model of `round(ratio_value, 1)`. -/
def py_round1 (q : ℚ) : ℚ :=
  (round_half_even (q * 10) : ℚ) / 10

/-- Model of `min(available_values, key=lambda x: abs(x - ratio_value))`:
the first option at minimal distance. -/
def closest_option (ratio_value : ℚ) (options : List ℚ) : ℚ :=
  match options with
  | [] => 0
  | x :: rest =>
    rest.foldl (fun best y => if |y - ratio_value| < |best - ratio_value| then y else best) x

/-- Model of one attempt of `_set_blend_ratio_value`: the widget
visibility and attachment probes reschedule on failure without touching
any state; on success the ratio is rounded to the nearest tenth,
clamped to `[0.1, 0.9]`, snapped to the option list, written to the
widget and to `self.blend_ratio`, and `notify_ratio_changed` routes
through `on_blend_ratio_changed`.  The three value-setting methods and
the manual fallback all leave this same model state. -/
def set_blend_ratio_attempt (env : BlendRatioEnv) (ratio_value : ℚ) (s : AppState) :
    AppState × AttemptOutcome :=
  if env.widget_visible = false then (s, .needsRetry)
  else if env.widget_attached = false then (s, .needsRetry)
  else if env.select_attached = false then (s, .needsRetry)
  else
    let rounded := py_round1 ratio_value
    let rounded := max (1 / 10) (min (9 / 10) rounded)
    let rounded :=
      if RATIO_OPTION_VALUES.contains rounded then rounded
      else closest_option ratio_value RATIO_OPTION_VALUES
    let s := { s with
      blendWidget := { s.blendWidget with current_ratio := rounded }
      blend_ratio := rounded }
    (on_blend_ratio_changed s rounded, .applied)

/-! The bounded retry chain itself.  Both `_set_voice2_value` and
`_set_blend_ratio_value` carry `(attempt, max_attempts=10)`, return at
entry once `attempt > max_attempts` after surfacing a failure message,
and otherwise reschedule themselves with `attempt + 1` on the next
refresh cycle.  `ready k` abstracts whether the readiness probes pass
at attempt `k`. -/

/-- Final outcome of a retry chain: applied at some attempt, or
abandoned with the non-fatal failure message after the attempt budget
is spent. -/
inductive RecOutcome
  | applied (attempt : Nat)
  | abandoned
  deriving DecidableEq, Repr

/-- The retry chain, recursing on the remaining attempt budget
`max_attempts + 1 - attempt`; the second component counts the attempts
that actually probed readiness. -/
def reconcileAux (ready : Nat → Bool) (attempt : Nat) : Nat → RecOutcome × Nat
  | 0 => (.abandoned, 0)
  | remaining + 1 =>
    if ready attempt then (.applied attempt, 1)
    else
      let p := reconcileAux ready (attempt + 1) remaining
      (p.1, p.2 + 1)

/-- Run a retry chain from the given attempt number. -/
def reconcile (ready : Nat → Bool) (max_attempts attempt : Nat) : RecOutcome × Nat :=
  reconcileAux ready attempt (max_attempts + 1 - attempt)

/-- Per-pending-assignment status, as one refresh cycle sees it. -/
inductive StepStatus
  | pending (attempt : Nat)
  | applied (attempt : Nat)
  | abandoned
  deriving DecidableEq, Repr

/-- One refresh cycle of a single pending reconciliation step:
abandon past the attempt budget, apply when ready, otherwise stay
pending with the next attempt number. -/
def stepOnce (ready : Nat → Bool) (max_attempts : Nat) : StepStatus → StepStatus
  | .pending a =>
    if max_attempts < a then .abandoned
    else if ready a then .applied a
    else .pending (a + 1)
  | st => st

/-- Joint scheduler state of the two independent retry chains started
by `_apply_saved_settings`. -/
structure SchedState where
  voice2 : StepStatus
  ratio : StepStatus
  deriving DecidableEq, Repr

/-- One refresh cycle of the scheduler: each pending chain advances by
its own attempt, with its own readiness environment. -/
def schedCycle (readyV readyR : Nat → Bool) (max_attempts : Nat) (s : SchedState) : SchedState :=
  { voice2 := stepOnce readyV max_attempts s.voice2
    ratio := stepOnce readyR max_attempts s.ratio }

/-! Cascade semantics of the output-filename input.  When
`on_input_changed` strips a trailing `".wav"` it also writes the
stripped name back into the `Input` (`event.input.value = filename`);
the written value is strictly shorter than the old one, so the reactive
attribute fires a further `Input.Changed` event on the stored name.
`input_event_cascade` is the widget state once these self-induced
events have settled. -/

/-- Length of a stripped string never exceeds the original. -/
theorem pyStrip_length_le (s : String) : (pyStrip s).data.length ≤ s.data.length := by
  unfold pyStrip
  calc (((s.data.dropWhile isPySpace).reverse.dropWhile isPySpace).reverse).length
      = ((s.data.dropWhile isPySpace).reverse.dropWhile isPySpace).length := by
        rw [List.length_reverse]
    _ ≤ (s.data.dropWhile isPySpace).reverse.length :=
        (List.dropWhile_sublist _).length_le
    _ = (s.data.dropWhile isPySpace).length := by rw [List.length_reverse]
    _ ≤ s.data.length := (List.dropWhile_sublist _).length_le

/-- Helper for the termination of the input-event cascade: stripping
four characters off a `".wav"`-suffixed name bounded by the original
entry goes strictly below the entry length. -/
theorem cascade_arg_lt (value t : String)
    (hle : t.data.length ≤ value.data.length)
    (h : pyEndsWith t ".wav" = true) :
    (pyDropRight t 4).data.length < value.data.length := by
  have h4 : 4 ≤ t.data.length := by
    rcases of_decide_eq_true h with ⟨l, hl⟩
    have hlen : t.data.length = l.length + 4 := by
      rw [← hl]
      simp
    omega
  have hdr : (pyDropRight t 4).data.length = t.data.length - 4 := by
    simp only [pyDropRight, List.length_take]
    omega
  omega

/-- The widget state after an input event and every follow-up event its
value rewrite induces. -/
def input_event_cascade (value : String) : OutputFilenameWidgetState :=
  let t0 := pyStrip value
  let t := if t0.data.isEmpty then "output" else t0
  if h : pyEndsWith t ".wav" = true then
    input_event_cascade (pyDropRight t 4)
  else
    { current_filename := t, is_valid := validate_filename t }
termination_by value.data.length
decreasing_by
  have h2 : pyEndsWith (if (pyStrip value).data.isEmpty then "output" else pyStrip value)
      ".wav" = true := h
  show (pyDropRight (if (pyStrip value).data.isEmpty then "output" else pyStrip value) 4
      ).data.length < value.data.length
  by_cases he : (pyStrip value).data.isEmpty
  · rw [if_pos he] at h2
    exact absurd (of_decide_eq_true h2) (by decide)
  · rw [if_neg he] at h2 ⊢
    exact cascade_arg_lt value (pyStrip value) (pyStrip_length_le value) h2

/-! Concrete states used by witnesses and counterexamples. -/

/-- A fully configured idle state: text loaded from `script.txt`, dual
mode with `am_michael` and `am_onyx`, ratio `0.3`, coherent
output-filename widget. -/
def demoState : AppState :=
  { initApp [] with
    selectedText := "Hello world"
    selectedFileName := some "script.txt"
    voice_mode := 2
    voice1 := some "am_michael"
    voice2 := some "am_onyx"
    blend_ratio := 0.3
    voiceWidget :=
      { mode := 2, selected_voice1 := some "am_michael", selected_voice2 := some "am_onyx" }
    outputWidget :=
      { current_filename := "script_am_michael_am_onyx_30", is_valid := true } }

/-- `demoState` with a job already in flight: the dispatch set the
generation flag, disabled the trigger and handed the worker its
dispatch record. -/
def demoRunning : AppState :=
  { demoState with
    is_generating := true
    generateBtnDisabled := true
    running := some "script_am_michael_am_onyx_30.wav" }

/-! Claim theorems. -/

/-- C9: for every blend invocation with ratio `r` in `[0, 1]`, the
weight `VoiceBlender.blend` applies to the first voice is `1 - r`, the
weight applied to the second voice is `r`, and the two weights sum to
exactly `1`. -/
theorem blend_weights_sum_C9 (r : ℚ) (h0 : 0 ≤ r) (h1 : r ≤ 1) :
    (blendWeights r).1 = 1 - r ∧
    (blendWeights r).2 = r ∧
    (blendWeights r).1 + (blendWeights r).2 = 1 := by
  refine ⟨rfl, rfl, ?_⟩
  simp [blendWeights]

/-- Witness for C9 at the concrete ratio `0.3`. -/
theorem blend_weights_sum_C9_witness :
    (0 : ℚ) ≤ 0.3 ∧ (0.3 : ℚ) ≤ 1 ∧
    ((blendWeights 0.3).1 = 1 - 0.3 ∧
     (blendWeights 0.3).2 = 0.3 ∧
     (blendWeights 0.3).1 + (blendWeights 0.3).2 = 1) :=
  ⟨by norm_num, by norm_num, blend_weights_sum_C9 0.3 (by norm_num) (by norm_num)⟩

/-- C7 (the dispatcher never runs the reset): the reset helper
`_reset_ui_after_generation` would indeed clear the generation flag,
the loaded text and file and re-enable the trigger while leaving the
voice mode, both voices and the blend ratio untouched — but the branch
of `on_worker_state_changed` that should invoke it on a Completed
outcome guards on `worker_state == "success"`, a comparison of the
`WorkerState` enum member against a string that is `False` for every
state, so on a completed job the handler returns with the state
unchanged: from the concrete running state the job flag stays true and
the trigger stays disabled. -/
theorem reset_after_completion_C7 :
    (∀ s : AppState,
        (reset_ui_after_generation s).is_generating = false ∧
        (reset_ui_after_generation s).generateBtnDisabled = false ∧
        (reset_ui_after_generation s).selectedText = "" ∧
        (reset_ui_after_generation s).selectedFileName = none ∧
        (reset_ui_after_generation s).voice_mode = s.voice_mode ∧
        (reset_ui_after_generation s).voice1 = s.voice1 ∧
        (reset_ui_after_generation s).voice2 = s.voice2 ∧
        (reset_ui_after_generation s).blend_ratio = s.blend_ratio) ∧
    (∀ (ws : WorkerState) (t : String),
        pyEq (PyValue.workerState ws) (PyValue.str t) = false) ∧
    on_worker_state_changed demoRunning (some "audio_generator") WorkerState.success =
      demoRunning ∧
    demoRunning.is_generating = true ∧
    demoRunning.generateBtnDisabled = true := by
  refine ⟨fun s => ⟨rfl, rfl, rfl, rfl, rfl, rfl, rfl, rfl⟩, fun ws t => rfl, rfl, rfl, rfl⟩

/-- C3: a reconciliation step whose target never becomes ready probes
readiness exactly `max_attempts = 10` times, then is abandoned with the
surfaced (non-fatal) failure message; and in the joint scheduler each
pending step advances independently of the other step and of its
readiness environment, so an abandonment never disturbs the other
pending step. -/
theorem reconcile_bounded_retry_C3 :
    reconcile (fun _ => false) 10 1 = (RecOutcome.abandoned, 10) ∧
    (∀ (readyV readyR : Nat → Bool) (m n : Nat) (st : SchedState),
        ((schedCycle readyV readyR m)^[n] st).ratio = (stepOnce readyR m)^[n] st.ratio ∧
        ((schedCycle readyV readyR m)^[n] st).voice2 = (stepOnce readyV m)^[n] st.voice2) := by
  constructor
  · decide
  · intro readyV readyR m n st
    induction n with
    | zero => exact ⟨rfl, rfl⟩
    | succ n ih =>
      rw [Function.iterate_succ_apply', Function.iterate_succ_apply',
        Function.iterate_succ_apply']
      exact ⟨congrArg (stepOnce readyR m) ih.1, congrArg (stepOnce readyV m) ih.2⟩

/-- C1: the interface-layer guard `TriggerInv` (the trigger is disabled
whenever a job is in progress) is established by dispatch, preserved by
the worker-state handler, and true initially, and under it a generate
press made while `jobInProgress` is true delivers no event at all — the
state is unchanged, including the dispatch record of the running job —
while a successful dispatch can only happen from the idle state. -/
theorem dispatch_single_job_C1 (s : AppState) (hinv : TriggerInv s) :
    (s.is_generating = true → pressGenerate s = (s, none)) ∧
    (∀ p, (pressGenerate s).2 = some (GenResult.dispatched p) → s.is_generating = false) ∧
    TriggerInv (pressGenerate s).1 ∧
    (∀ (worker_name : Option String) (worker_state : WorkerState),
        TriggerInv (on_worker_state_changed s worker_name worker_state)) ∧
    (∀ st : Store, TriggerInv (initApp st)) := by
  refine ⟨?_, ?_, ?_, ?_, fun st h => Bool.noConfusion h⟩
  · intro hgen
    have hd : s.generateBtnDisabled = true := hinv hgen
    simp [pressGenerate, hd]
  · intro p hp
    by_cases hd : s.generateBtnDisabled = true
    · simp [pressGenerate, hd] at hp
    · cases hgen : s.is_generating
      · rfl
      · exact absurd (hinv hgen) hd
  · by_cases hd : s.generateBtnDisabled = true
    · simpa [pressGenerate, hd] using hinv
    · have hcases : (handle_generate s).1 = s ∨
          (handle_generate s).1.generateBtnDisabled = true := by
        unfold handle_generate
        dsimp only
        repeat' split
        all_goals first
          | exact Or.inl rfl
          | exact Or.inr rfl
      have hpr : (pressGenerate s).1 = (handle_generate s).1 := by
        simp [pressGenerate, hd]
      rw [hpr]
      rcases hcases with he | hbtn
      · rw [he]
        exact hinv
      · intro _
        exact hbtn
  · intro worker_name worker_state
    have hsucc : pyEq (PyValue.workerState worker_state) (PyValue.str "success") = false := rfl
    have herr : pyEq (PyValue.workerState worker_state) (PyValue.str "error") = false := rfl
    unfold on_worker_state_changed
    split
    · rw [if_neg (by simp [hsucc]), if_neg (by simp [herr])]
      exact hinv
    · exact hinv

/-- Witness for C1: in the concrete running state the press is a
no-event no-op. -/
theorem dispatch_single_job_C1_witness :
    pressGenerate demoRunning = (demoRunning, none) :=
  (dispatch_single_job_C1 demoRunning (fun _ => rfl)).1 rfl

/-- C2 (refuting read-isolation): the worker callable passed to
`run_worker` is `lambda: self._generate_worker(self.selected_text,
self.voice_mode, self.voice1, self.voice2, self.blend_ratio,
str(output_path))`; only the local `output_path` is captured at
dispatch time, while every `self.` attribute is read when the worker
thread runs the lambda.  Starting from the dispatched `demoState`, a
voice-selection change processed before the worker starts (the UI
deliberately leaves every control but the generate button enabled)
changes the `voice1` handed to the synthesis engine, so the job does
not read only the dispatch-time snapshot. -/
theorem worker_reads_live_state_C2 :
    (handle_generate demoState).2 =
      GenResult.dispatched "script_am_michael_am_onyx_30.wav" ∧
    ((generateWorkerArgs "script_am_michael_am_onyx_30.wav"
        (on_voice_selection_changed (handle_generate demoState).1
          2 (some "am_adam") (some "am_onyx"))).voice1 ≠
      (generateWorkerArgs "script_am_michael_am_onyx_30.wav"
        (handle_generate demoState).1).voice1) ∧
    (generateWorkerArgs "script_am_michael_am_onyx_30.wav"
        (on_voice_selection_changed (handle_generate demoState).1
          2 (some "am_adam") (some "am_onyx"))).output_path =
      (generateWorkerArgs "script_am_michael_am_onyx_30.wav"
        (handle_generate demoState).1).output_path := by
  refine ⟨by decide, by decide, rfl⟩

/-- C4 counterexample: an attempt of `_set_voice2_value` whose target
widgets are not ready still mutates Session State — the unconditional
`self.voice2 = voice2_value` at the top of the attempt body runs before
any readiness check — so a needs-retry attempt starting from a state
with `voice2 = None` changes `voice2`. -/
theorem voice2_retry_mutates_state_C4_counterexample :
    (set_voice2_attempt
        { section_exists := false, select_attached := false, voices_loaded := false }
        "am_onyx" { demoState with voice2 := none }).2 = AttemptOutcome.needsRetry ∧
    (set_voice2_attempt
        { section_exists := false, select_attached := false, voices_loaded := false }
        "am_onyx" { demoState with voice2 := none }).1.voice2 ≠
      ({ demoState with voice2 := none } : AppState).voice2 := by
  exact ⟨by decide, by decide⟩

/-- C4 (amended): a needs-retry attempt of the blend-ratio step leaves
the whole state unchanged; a needs-retry attempt of the voice-2 step
leaves the component state and all of Session State unchanged except
the `voice2` field, which it sets to the reconciliation target — so
failing attempts are idempotent: a second failing attempt changes
nothing further. -/
theorem reconcile_attempt_failure_frame_C4 (envR : BlendRatioEnv) (envV : Voice2Env)
    (r : ℚ) (v : String) (s : AppState) :
    ((set_blend_ratio_attempt envR r s).2 = AttemptOutcome.needsRetry →
      (set_blend_ratio_attempt envR r s).1 = s) ∧
    ((set_voice2_attempt envV v s).2 = AttemptOutcome.needsRetry →
      (set_voice2_attempt envV v s).1 = { s with voice2 := some v }) ∧
    ((set_voice2_attempt envV v s).2 = AttemptOutcome.needsRetry →
      (set_voice2_attempt envV v { s with voice2 := some v }).1 =
        (set_voice2_attempt envV v s).1) := by
  refine ⟨?_, ?_, ?_⟩
  · intro hr
    unfold set_blend_ratio_attempt at hr ⊢
    repeat' split at hr <;> first | rfl | simp_all
  · intro hr
    unfold set_voice2_attempt at hr ⊢
    repeat' split at hr <;> first | rfl | simp_all
  · intro hr
    unfold set_voice2_attempt at hr ⊢
    repeat' split at hr <;> first | rfl | simp_all

/-- Witness for C4 (amended) at a concrete not-ready environment. -/
theorem reconcile_attempt_failure_frame_C4_witness :
    (set_blend_ratio_attempt
        { widget_visible := false, widget_attached := false, select_attached := false }
        0.3 demoState).1 = demoState ∧
    (set_voice2_attempt
        { section_exists := false, select_attached := false, voices_loaded := false }
        "am_onyx" demoState).1 = { demoState with voice2 := some "am_onyx" } :=
  ⟨(reconcile_attempt_failure_frame_C4
      { widget_visible := false, widget_attached := false, select_attached := false }
      { section_exists := false, select_attached := false, voices_loaded := false }
      0.3 "am_onyx" demoState).1 (by decide),
   (reconcile_attempt_failure_frame_C4
      { widget_visible := false, widget_attached := false, select_attached := false }
      { section_exists := false, select_attached := false, voices_loaded := false }
      0.3 "am_onyx" demoState).2.1 (by decide)⟩

/-- C5: under the widget coherence maintained by every writer of the
output-filename widget (`is_valid` is `validate_filename` of the
current name), `handle_generate` rejects the dispatch and starts no job
— the state is returned unchanged — whenever no text is loaded, or
dual mode is missing a voice, or the output name holds one of the nine
characters of `invalid_chars` (slash, backslash, colon, asterisk,
question mark, double quote, angle brackets, pipe). -/
theorem dispatch_validation_C5 (s : AppState)
    (hcoh : s.outputWidget.is_valid = validate_filename s.outputWidget.current_filename) :
    (s.selectedText.data.isEmpty = true →
      (handle_generate s).1 = s ∧ (handle_generate s).2.isRejected = true) ∧
    (s.voiceWidget.mode = 2 ∧
        (s.voiceWidget.selected_voice1 = none ∨ s.voiceWidget.selected_voice2 = none) →
      (handle_generate s).1 = s ∧ (handle_generate s).2.isRejected = true) ∧
    (∀ c ∈ invalid_chars, pyContainsChar s.outputWidget.current_filename c = true →
      (handle_generate s).1 = s ∧ (handle_generate s).2.isRejected = true) := by
  refine ⟨?_, ?_, ?_⟩
  · intro ht
    unfold handle_generate
    rw [if_pos ht]
    exact ⟨rfl, rfl⟩
  · rintro ⟨hm, hv⟩
    have hval : (validate_selection s.voiceWidget).1 = false := by
      unfold validate_selection
      rcases hv with h1 | h2
      · rw [h1]
      · cases hv1 : s.voiceWidget.selected_voice1 with
        | none => rfl
        | some a =>
          have : s.voiceWidget.mode = 2 ∧ s.voiceWidget.selected_voice2 = none := ⟨hm, h2⟩
          simp [this]
    unfold handle_generate
    by_cases ht : s.selectedText.data.isEmpty = true
    · rw [if_pos ht]
      exact ⟨rfl, rfl⟩
    · rw [if_neg ht]
      dsimp only
      rw [if_pos hval]
      exact ⟨rfl, rfl⟩
  · intro c hc hcont
    have hvf : validate_filename s.outputWidget.current_filename = false := by
      unfold validate_filename
      have hany : invalid_chars.any
          (fun ch => pyContainsChar s.outputWidget.current_filename ch) = true :=
        List.any_eq_true.mpr ⟨c, hc, hcont⟩
      rw [hany]
      split <;> rfl
    unfold handle_generate
    by_cases ht : s.selectedText.data.isEmpty = true
    · rw [if_pos ht]
      exact ⟨rfl, rfl⟩
    · rw [if_neg ht]
      dsimp only
      by_cases hval : (validate_selection s.voiceWidget).1 = false
      · rw [if_pos hval]
        exact ⟨rfl, rfl⟩
      · rw [if_neg hval, if_pos (hcoh.trans hvf)]
        exact ⟨rfl, rfl⟩

/-- Witness for C5: the freshly initialised application (no text
loaded) has a coherent output widget and its dispatch is rejected
without a state change. -/
theorem dispatch_validation_C5_witness :
    (handle_generate (initApp [])).1 = initApp [] ∧
    (handle_generate (initApp [])).2.isRejected = true :=
  (dispatch_validation_C5 (initApp []) (by decide)).1 (by decide)

/-- Helper: the integer blend percentage of ratio `0.3` renders as
`"30"`. -/
theorem ratio_pct_30 : toString (pyTrunc ((0.3 : ℚ) * 100)) = "30" := by
  have h : pyTrunc ((0.3 : ℚ) * 100) = 30 := by
    unfold pyTrunc
    rw [if_pos (by norm_num)]
    have : ((0.3 : ℚ) * 100) = 30 := by norm_num
    rw [this]
    exact Int.floor_intCast 30
  rw [h]
  decide

/-- C6: whenever an input file is loaded the suggested output filename
is derived deterministically — `base_voice1_voice2_P` in dual mode with
`P` the truncated integer percentage of the ratio, `base_voice1` in
single mode — the concrete instance `script.txt`, dual, `am_michael`,
`am_onyx`, ratio `0.3` yields `script_am_michael_am_onyx_30`, and the
recompute is idempotent. -/
theorem smart_output_filename_C6 :
    (∀ (s : AppState) (f v1 v2 : String),
        s.selectedFileName = some f → s.voice_mode = 2 →
        s.voice1 = some v1 → s.voice2 = some v2 →
        (update_smart_output_filename s).outputWidget.current_filename =
          pathStem f ++ "_" ++ v1 ++ "_" ++ v2 ++ "_" ++
            toString (pyTrunc (s.blend_ratio * 100))) ∧
    (∀ (s : AppState) (f v1 : String),
        s.selectedFileName = some f → s.voice_mode = 1 →
        s.voice1 = some v1 →
        (update_smart_output_filename s).outputWidget.current_filename =
          pathStem f ++ "_" ++ v1) ∧
    (update_smart_output_filename demoState).outputWidget.current_filename =
      "script_am_michael_am_onyx_30" ∧
    (∀ s : AppState,
        update_smart_output_filename (update_smart_output_filename s) =
          update_smart_output_filename s) := by
  have hdual : ∀ (s : AppState) (f v1 v2 : String),
      s.selectedFileName = some f → s.voice_mode = 2 →
      s.voice1 = some v1 → s.voice2 = some v2 →
      (update_smart_output_filename s).outputWidget.current_filename =
        pathStem f ++ "_" ++ v1 ++ "_" ++ v2 ++ "_" ++
          toString (pyTrunc (s.blend_ratio * 100)) := by
    intro s f v1 v2 hf hm h1 h2
    unfold update_smart_output_filename
    rw [hf]
    dsimp only
    rw [if_pos ⟨hm, by rw [h1]; rfl, by rw [h2]; rfl⟩, h1, h2]
    rfl
  refine ⟨hdual, ?_, ?_, ?_⟩
  · intro s f v1 hf hm h1
    unfold update_smart_output_filename
    rw [hf]
    dsimp only
    rw [if_neg (by rw [hm]; simp), h1]
  · have := hdual demoState "script.txt" "am_michael" "am_onyx" rfl rfl rfl rfl
    rw [this]
    have hb : demoState.blend_ratio = (0.3 : ℚ) := rfl
    rw [hb, ratio_pct_30]
    decide
  · intro s
    cases hf : s.selectedFileName with
    | none => simp only [update_smart_output_filename, hf]
    | some f => simp only [update_smart_output_filename, hf]

/-- Witness for C6: the dual-mode formula applied at the concrete
`demoState`. -/
theorem smart_output_filename_C6_witness :
    (update_smart_output_filename demoState).outputWidget.current_filename =
      pathStem "script.txt" ++ "_" ++ "am_michael" ++ "_" ++ "am_onyx" ++ "_" ++
        toString (pyTrunc (demoState.blend_ratio * 100)) :=
  smart_output_filename_C6.1 demoState "script.txt" "am_michael" "am_onyx" rfl rfl rfl rfl

/-- C8: persisting `voice_mode=2` and `blend_ratio=0.35` through the
settings store (two `set` calls followed by the synchronous `save`),
then reloading the written file in a fresh process and running the
startup read of `VoiceBlendApp.__init__`, restores a session state with
`voice_mode = 2` (dual) and `blend_ratio = 0.35` without user
interaction. -/
theorem settings_round_trip_C8 :
    (initApp (load (saveLines (set (set [] "voice_mode" "2") "blend_ratio" "0.35")) [])
      ).voice_mode = 2 ∧
    (initApp (load (saveLines (set (set [] "voice_mode" "2") "blend_ratio" "0.35")) [])
      ).blend_ratio = 0.35 := by
  have hst : load (saveLines (set (set [] "voice_mode" "2") "blend_ratio" "0.35")) [] =
      [("blend_ratio", "0.35"), ("voice_mode", "2")] := by decide
  rw [hst]
  constructor
  · decide
  · show get_float [("blend_ratio", "0.35"), ("voice_mode", "2")] "blend_ratio" 0.5 = 0.35
    simp [get_float, storeFind, pyParseFloat, pyStrip, pySplitOnce, digitsToNat, isPySpace]
    norm_num

/-- Helper: dropping the final four characters of a `".wav"`-suffixed
string leaves exactly the part before the suffix. -/
theorem dropRight_of_wav_suffix (t : String) (l : List Char)
    (hl : l ++ (".wav" : String).data = t.data) :
    (pyDropRight t 4).data = l := by
  unfold pyDropRight
  show (t.data.take (t.data.length - 4)) = l
  have hlen : t.data.length = l.length + 4 := by
    rw [← hl]
    simp
  have h4 : t.data.length - 4 = l.length := by omega
  rw [h4, ← hl]
  exact List.take_left l _

/-- Helper: the double `".wav.wav"` suffix is the `".wav"` suffix taken
twice. -/
theorem wavwav_data :
    (".wav.wav" : String).data = (".wav" : String).data ++ (".wav" : String).data := by
  decide

/-- Helper: once the self-induced follow-up input events of the
output-filename widget settle, the stored name is non-empty and carries
no `".wav"` suffix. -/
theorem cascade_settles (v : String) :
    (input_event_cascade v).current_filename ≠ "" ∧
    pyEndsWith (input_event_cascade v).current_filename ".wav" = false := by
  generalize hn : v.data.length = n
  induction n using Nat.strong_induction_on generalizing v with
  | _ n ih =>
    unfold input_event_cascade
    dsimp only
    by_cases he : (pyStrip v).data.isEmpty = true
    · rw [if_pos he, dif_neg (by decide : ¬ pyEndsWith "output" ".wav" = true)]
      exact ⟨by decide, by decide⟩
    · rw [if_neg he]
      by_cases hw : pyEndsWith (pyStrip v) ".wav" = true
      · rw [dif_pos hw]
        exact ih _ (hn ▸ cascade_arg_lt v (pyStrip v) (pyStrip_length_le v) hw) _ rfl
      · rw [dif_neg hw]
        refine ⟨?_, by simpa using hw⟩
        intro contra
        have hd := congrArg String.data contra
        simp only at hd
        exact he (by simp [hd])

/-- C10 counterexample: after the single input event for the entry
`".wav"` the current filename is the empty string; after the single
event for `"x.wav.wav"` it still ends in `".wav"`; and
`FileService.get_output_path` applied to `"x.wav.wav"` returns a name
ending in a double `".wav"` suffix rather than exactly one. -/
theorem output_name_normalisation_C10_counterexample :
    (on_input_changed ".wav").current_filename = "" ∧
    pyEndsWith (on_input_changed "x.wav.wav").current_filename ".wav" = true ∧
    pyEndsWith (get_output_path_name "x.wav.wav") ".wav.wav" = true := by
  exact ⟨by decide, by decide, by decide⟩

/-- C10 (amended): an input event replaces an empty or whitespace-only
entry by `"output"` and strips exactly one trailing `".wav"`, so the
resulting name is non-empty and free of a `".wav"` suffix whenever the
stripped entry is not itself `".wav"` and does not end in `".wav.wav"`;
entries violating this settle through the widget value rewrite, whose
induced input events always end with a non-empty name carrying no
`".wav"` suffix; `FileService.get_output_path` strips one trailing
`".wav"` and appends `".wav"`, so its result always ends in `".wav"`,
and in exactly one `".wav"` when its argument does not end in
`".wav.wav"`. -/
theorem output_name_normalisation_C10 (v name : String)
    (h1 : pyStrip v ≠ ".wav")
    (h2 : pyEndsWith (pyStrip v) ".wav.wav" = false)
    (h3 : pyEndsWith name ".wav.wav" = false) :
    (on_input_changed v).current_filename ≠ "" ∧
    pyEndsWith (on_input_changed v).current_filename ".wav" = false ∧
    (∀ w : String, pyEndsWith (get_output_path_name w) ".wav" = true) ∧
    pyEndsWith (get_output_path_name name) ".wav.wav" = false ∧
    ((input_event_cascade v).current_filename ≠ "" ∧
      pyEndsWith (input_event_cascade v).current_filename ".wav" = false) := by
  have hworkhorse : ∀ u : String, pyEndsWith u ".wav" = true →
      pyEndsWith u ".wav.wav" = false → u ≠ ".wav" →
      (pyDropRight u 4) ≠ "" ∧ pyEndsWith (pyDropRight u 4) ".wav" = false := by
    intro u hu huu hne
    have huu2 : ¬ ((".wav.wav" : String).data <:+ u.data) := of_decide_eq_false huu
    rcases of_decide_eq_true hu with ⟨l, hl⟩
    have hdrop := dropRight_of_wav_suffix u l hl
    constructor
    · intro contra
      have hld : l = [] := by
        have hcd := congrArg String.data contra
        rw [hdrop] at hcd
        simpa using hcd
      apply hne
      apply String.ext
      rw [← hl, hld]
      rfl
    · apply decide_eq_false
      intro hsuf
      rw [hdrop] at hsuf
      rcases hsuf with ⟨l2, hl2⟩
      apply huu2
      refine ⟨l2, ?_⟩
      rw [wavwav_data, ← hl, ← hl2]
      simp
  refine ⟨?_, ?_, ?_, ?_, cascade_settles v⟩
  · unfold on_input_changed
    dsimp only
    by_cases he : (pyStrip v).data.isEmpty = true
    · rw [if_pos he, if_neg (by decide : ¬ pyEndsWith "output" ".wav" = true)]
      decide
    · rw [if_neg he]
      by_cases hw : pyEndsWith (pyStrip v) ".wav" = true
      · rw [if_pos hw]
        exact (hworkhorse (pyStrip v) hw h2 h1).1
      · rw [if_neg hw]
        intro contra
        have hd := congrArg String.data contra
        simp only at hd
        exact he (by simp [hd])
  · unfold on_input_changed
    dsimp only
    by_cases he : (pyStrip v).data.isEmpty = true
    · rw [if_pos he, if_neg (by decide : ¬ pyEndsWith "output" ".wav" = true)]
      decide
    · rw [if_neg he]
      by_cases hw : pyEndsWith (pyStrip v) ".wav" = true
      · rw [if_pos hw]
        exact (hworkhorse (pyStrip v) hw h2 h1).2
      · rw [if_neg hw]
        simpa using hw
  · intro w
    unfold get_output_path_name
    apply decide_eq_true
    show (".wav" : String).data <:+ _
    rw [String.data_append]
    exact List.suffix_append _ _
  · unfold get_output_path_name
    dsimp only
    apply decide_eq_false
    intro hsuf
    rw [String.data_append, wavwav_data] at hsuf
    rcases hsuf with ⟨l2, hl2⟩
    rw [← List.append_assoc] at hl2
    have hcancel := List.append_cancel_right hl2
    by_cases hN : pyEndsWith name ".wav" = true
    · rw [if_pos hN] at hcancel
      rcases of_decide_eq_true hN with ⟨l, hl⟩
      have hdrop := dropRight_of_wav_suffix name l hl
      rw [hdrop] at hcancel
      have hdouble : (".wav.wav" : String).data <:+ name.data := by
        refine ⟨l2, ?_⟩
        rw [wavwav_data, ← hl, ← hcancel]
        simp
      exact (of_decide_eq_false h3) hdouble
    · rw [if_neg hN] at hcancel
      exact hN (decide_eq_true ⟨l2, hcancel⟩)

/-- Witness for C10 (amended) at the entry `" myfile.wav "` and the
argument `"track"`. -/
theorem output_name_normalisation_C10_witness :
    (on_input_changed " myfile.wav ").current_filename ≠ "" ∧
    pyEndsWith (on_input_changed " myfile.wav ").current_filename ".wav" = false ∧
    (∀ w : String, pyEndsWith (get_output_path_name w) ".wav" = true) ∧
    pyEndsWith (get_output_path_name "track") ".wav.wav" = false ∧
    ((input_event_cascade " myfile.wav ").current_filename ≠ "" ∧
      pyEndsWith (input_event_cascade " myfile.wav ").current_filename ".wav" = false) :=
  output_name_normalisation_C10 " myfile.wav " "track" (by decide) (by decide) (by decide)

end VoiceBlend

